import Mathlib

/-!
Shallow embedding of the tournament-registration backend (`main.py`).

The program is a Flask app with:
* `submit_registration` — validates a two-player JSON payload, builds a
  ten-field row, appends it to a Google Sheet or, when the sheet connection
  fails, to a local pipe-delimited file;
* `require_teacher_auth` — a decorator gating `/teacher` routes on the
  session flag `teacher_authenticated`;
* `teacher_login` — POST handler comparing a submitted password against the
  configured secret (`TEACHER_PASSWORD`, default `admin123`);
* `teacher_dashboard` — aggregate payment counters over all records;
* `update_payment` — linear scan for a Team ID and a single-cell overwrite.

External effects (the Google-Sheets client, the local file, the session
store) are modelled by explicit parameters and by returning the list of
rows appended / cells written during the request.
-/

namespace ArkSplatoon

/-! ## Python values and `int()` coercion

Ages arrive from JSON and are passed through Python's `int(...)` inside a
`try: ... except (ValueError, TypeError)` block.  `PyVal` covers the JSON
scalars relevant here; `pyIntCast` returns `none` exactly when `int(...)`
raises one of the two caught exception types. -/

inductive PyVal where
  | pyInt (n : Int)
  | pyBool (b : Bool)
  | pyStr (s : String)
  | pyNone
deriving DecidableEq

/-- Digits-with-underscores body of a Python integer literal: nonempty,
first and last characters are digits, every character is a digit or `_`,
and no two consecutive underscores. -/
def noDoubleUnderscore : List Char → Bool
  | '_' :: '_' :: _ => false
  | _ :: rest => noDoubleUnderscore rest
  | [] => true

def validIntBody (cs : List Char) : Bool :=
  (match cs with | c :: _ => c.isDigit | [] => false) &&
  (match cs.getLast? with | some c => c.isDigit | none => false) &&
  cs.all (fun c => c.isDigit || c == '_') &&
  noDoubleUnderscore cs

def valueOfDigits (cs : List Char) : Nat :=
  cs.foldl (fun a c => if c == '_' then a else a * 10 + (c.toNat - 48)) 0

/-- Drop ASCII whitespace from the front of a character list. -/
def dropLeadingSpace : List Char → List Char
  | [] => []
  | c :: rest => if c.isWhitespace then dropLeadingSpace rest else c :: rest

/-- Python `str.strip()` (no argument): whitespace removed from both ends. -/
def pyStrip (s : String) : String :=
  ⟨((dropLeadingSpace ((dropLeadingSpace s.data).reverse)).reverse)⟩

/-- Python `int(s)` for a string `s`: strip whitespace, optional sign,
digit body (underscore separators allowed); `none` = `ValueError`. -/
def parsePyInt (s : String) : Option Int :=
  match (pyStrip s).data with
  | '-' :: rest => if validIntBody rest then some (-(valueOfDigits rest : Int)) else none
  | '+' :: rest => if validIntBody rest then some (valueOfDigits rest) else none
  | cs => if validIntBody cs then some (valueOfDigits cs) else none

/-- Python `int(v)`: ints pass through, bools coerce to 0/1, strings parse,
`None` raises `TypeError` (caught by the same `except` clause). -/
def pyIntCast : PyVal → Option Int
  | .pyInt n => some n
  | .pyBool b => some (if b then 1 else 0)
  | .pyStr s => parsePyInt s
  | .pyNone => none

/-! ## Timestamps and `strftime`

`datetime.now().strftime(...)` is modelled over an explicit clock value.
Decimal formatting is spelled out so digit facts are provable. -/

structure DateTime where
  year : Nat
  month : Nat
  day : Nat
  hour : Nat
  minute : Nat
  second : Nat
deriving DecidableEq

def digitChar (d : Nat) : Char := Char.ofNat (48 + d)

/-- Decimal formatting, structurally recursive on a fuel argument so that
concrete values reduce in the kernel.  `decimalCharsAux fuel n` is the
decimal representation of `n` whenever `n ≤ fuel`. -/
def decimalCharsAux : Nat → Nat → List Char
  | 0, n => [digitChar (n % 10)]
  | fuel + 1, n =>
    if n < 10 then [digitChar n]
    else decimalCharsAux fuel (n / 10) ++ [digitChar (n % 10)]

def decimalChars (n : Nat) : List Char := decimalCharsAux n n

/-- `%m`, `%d`, `%H`, `%M`, `%S`: zero-padded to two digits. -/
def pad2Chars (n : Nat) : List Char :=
  if n < 10 then '0' :: decimalChars n else decimalChars n

def pad2 (n : Nat) : String := ⟨pad2Chars n⟩

/-- `TEAM_%Y%m%d_%H%M%S` (line 117 of `main.py`). -/
def mkTeamIdChars (dt : DateTime) : List Char :=
  'T' :: 'E' :: 'A' :: 'M' :: '_' ::
    (decimalChars dt.year ++ pad2Chars dt.month ++ pad2Chars dt.day ++
     '_' :: (pad2Chars dt.hour ++ pad2Chars dt.minute ++ pad2Chars dt.second))

def mkTeamId (dt : DateTime) : String := ⟨mkTeamIdChars dt⟩

/-- `%Y-%m-%d %H:%M:%S` (row timestamp, line 121). -/
def timestampChars (dt : DateTime) : List Char :=
  decimalChars dt.year ++ '-' :: pad2Chars dt.month ++ '-' :: pad2Chars dt.day ++
    ' ' :: (pad2Chars dt.hour ++ ':' :: pad2Chars dt.minute ++ ':' :: pad2Chars dt.second)

def timestampStr (dt : DateTime) : String := ⟨timestampChars dt⟩

/-- Checks the shape `TEAM_` + 8 digits + `_` + 6 digits. -/
def wfTeamChars : List Char → Bool
  | 'T' :: 'E' :: 'A' :: 'M' :: '_' :: rest =>
    rest.length == 15 &&
    (rest.take 8).all Char.isDigit &&
    (match rest.drop 8 with
     | '_' :: tail => tail.all Char.isDigit
     | _ => false)
  | _ => false

def teamIdWellFormed (s : String) : Bool := wfTeamChars s.data

/-! ## Registration payload and handler -/

/-- One player object of the JSON payload.  `.get(key, default)` accesses
are modelled with `Option` fields (`none` = key absent).  The age and the
payment agreement can be any JSON scalar; the rest are taken as strings
(the handler only interpolates them into the row). -/
structure Player where
  fullName : Option String
  age : Option PyVal
  formNumber : Option String
  formName : Option String
  paymentAgreement : Option PyVal
deriving DecidableEq

structure SubmitPayload where
  player1 : Option Player
  player2 : Option Player
deriving DecidableEq

/-- External behaviour of the Google-Sheets side during one request:
whether `get_google_sheet()` returns a sheet (vs `None`), and whether
`sheet.append_row` raises. -/
structure Env where
  sheetAvailable : Bool
  appendRaises : Bool
deriving DecidableEq

inductive SubmitOutcome where
  | badRequest (msg : String)
  | ok (teamId : String) (savedToSheets : Bool)
  | serverError
deriving DecidableEq

def SubmitOutcome.httpStatus : SubmitOutcome → Nat
  | .badRequest _ => 400
  | .ok _ _ => 200
  | .serverError => 500

/-- Result of one `/submit-registration` request: the HTTP outcome plus the
rows appended to the spreadsheet and to the local fallback file. -/
structure SubmitResult where
  outcome : SubmitOutcome
  sheetAppends : List (List String)
  localAppends : List (List String)
deriving DecidableEq

/-- Row construction, lines 120-131: ten fields, both payment-agreement
cells hard-coded to `"No"` (list positions 4 and 8, 1-indexed 5 and 9). -/
def buildRow (dt : DateTime) (p1 p2 : Player) (a1 a2 : Int) (teamId : String) :
    List String :=
  [ timestampStr dt,
    p1.fullName.getD "",
    toString a1,
    pyStrip ((p1.formNumber.getD "") ++ " " ++ (p1.formName.getD "")),
    "No",
    p2.fullName.getD "",
    toString a2,
    pyStrip ((p2.formNumber.getD "") ++ " " ++ (p2.formName.getD "")),
    "No",
    teamId ]

/-- `submit_registration` (lines 83-159).  `data = none` models a request
body `get_json()` turned into a falsy value.  Both `int(...)` casts run
before the range checks, so either cast failing yields the generic
`"Invalid age provided"`; an in-range pair reaches persistence:
on an available sheet a raising `append_row` propagates to the outer
`except` (HTTP 500, no local write), otherwise the row is appended; on a
`None` sheet the row goes to the local fallback file and the response is
still a 200 success with `saved_to_sheets` false. -/
def submit_registration (env : Env) (dt : DateTime) (data : Option SubmitPayload) :
    SubmitResult :=
  match data with
  | none => ⟨.badRequest "No data received", [], []⟩
  | some payload =>
    match payload.player1 with
    | none => ⟨.badRequest "Missing player1 data", [], []⟩
    | some p1 =>
      match payload.player2 with
      | none => ⟨.badRequest "Missing player2 data", [], []⟩
      | some p2 =>
        match pyIntCast (p1.age.getD (.pyInt 0)), pyIntCast (p2.age.getD (.pyInt 0)) with
        | some a1, some a2 =>
          if ¬ (11 ≤ a1 ∧ a1 ≤ 14) then
            ⟨.badRequest "Player 1 age must be between 11-14", [], []⟩
          else if ¬ (11 ≤ a2 ∧ a2 ≤ 14) then
            ⟨.badRequest "Player 2 age must be between 11-14", [], []⟩
          else
            let teamId := mkTeamId dt
            let row := buildRow dt p1 p2 a1 a2 teamId
            if env.sheetAvailable then
              if env.appendRaises then ⟨.serverError, [], []⟩
              else ⟨.ok teamId true, [row], []⟩
            else ⟨.ok teamId false, [], [row]⟩
        | _, _ => ⟨.badRequest "Invalid age provided", [], []⟩

/-- The validity condition the handler's age checks implement: both casts
succeed and both results lie in `[11, 14]`. -/
def agesValid (a1v a2v : Option Int) : Prop :=
  ∃ a1 a2, a1v = some a1 ∧ a2v = some a2 ∧
    11 ≤ a1 ∧ a1 ≤ 14 ∧ 11 ≤ a2 ∧ a2 ≤ 14

/-! ## Session auth gate

The session is a single flag `session['teacher_authenticated']`, modelled
as `Option Bool` (`none` = key absent). -/

inductive GateResult where
  /-- The wrapped handler runs. -/
  | proceed
  /-- `redirect(url_for('teacher_login'))`. -/
  | redirectLogin
  /-- A 401 response; the decorator never produces this, the constructor
  exists so statements about 401 behaviour can be expressed. -/
  | unauthorized401
deriving DecidableEq

/-- `require_teacher_auth` (lines 56-63): redirects to the login page
unless the session flag is present and truthy.  The decorator never
inspects the request's content type, so `isJson` is ignored. -/
def require_teacher_auth (flag : Option Bool) (_isJson : Bool) : GateResult :=
  match flag with
  | some true => .proceed
  | _ => .redirectLogin

/-! ## Teacher login -/

/-- A POST to `/teacher/login`: content type and the password as read from
the form data and from the JSON body (`none` = absent). -/
structure LoginReq where
  isJson : Bool
  formPassword : Option String
  jsonPassword : Option String
deriving DecidableEq

/-- Python `a or b` on `str`-or-`None` operands: keeps `a` when it is a
nonempty string, otherwise evaluates to `b`. -/
def pyOr (a b : Option String) : Option String :=
  match a with
  | some s => if s == "" then b else some s
  | none => b

/-- Line 456 of `main.py`:
`password = request.form.get('password') or request.json.get('password') if request.is_json else None`.
The conditional expression binds loosest, so the whole right-hand side is
`None` for every non-JSON request. -/
def loginPassword (req : LoginReq) : Option String :=
  if req.isJson then pyOr req.formPassword req.jsonPassword else none

inductive LoginOutcome where
  /-- `session['teacher_authenticated'] = True` then redirect to the dashboard. -/
  | redirectDashboard
  /-- `jsonify({"error": "Invalid password"}), 401`. -/
  | jsonUnauthorized
  /-- `render_template_string(login_template, error=error)` at line 466
  runs before `login_template` is assigned at line 468; the
  `UnboundLocalError` escapes the handler, giving an HTTP 500. -/
  | internalError
deriving DecidableEq

/-- The POST branch of `teacher_login` (lines 455-466), returning the
outcome and the session flag after the request. -/
def teacher_login_post (secret : String) (sess : Option Bool) (req : LoginReq) :
    LoginOutcome × Option Bool :=
  if loginPassword req == some secret then (.redirectDashboard, some true)
  else if req.isJson then (.jsonUnauthorized, sess)
  else (.internalError, sess)

/-! ## Dashboard statistics -/

/-- One record from `sheet.get_all_records()` as used by the dashboard and
the payment updater: only the Team ID and the two payment-agreement cells
are inspected; `none` models a missing key. -/
structure Rec where
  teamId : Option String
  p1pay : Option String
  p2pay : Option String
deriving DecidableEq

/-- Line 438: both payment cells equal `"Yes"`. -/
def full_payment_count (records : List Rec) : Nat :=
  records.countP (fun r => r.p1pay == some "Yes" && r.p2pay == some "Yes")

/-- Line 439: exactly one of the two cells equals `"Yes"`. -/
def partial_payment_count (records : List Rec) : Nat :=
  records.countP (fun r => (r.p1pay == some "Yes") != (r.p2pay == some "Yes"))

/-- Line 440: both payment cells equal `"No"`. -/
def no_payment_count (records : List Rec) : Nat :=
  records.countP (fun r => r.p1pay == some "No" && r.p2pay == some "No")

/-- Line 437. -/
def total_count (records : List Rec) : Nat := records.length

/-! ## Payment updater -/

structure UpdateReq where
  team_id : Option String
  player : Option String
  payment_status : Option String
deriving DecidableEq

inductive UpdateOutcome where
  | badRequest (msg : String)
  | notFound (msg : String)
  | serverError (msg : String)
  | success (msg : String)
deriving DecidableEq

def UpdateOutcome.httpStatus : UpdateOutcome → Nat
  | .badRequest _ => 400
  | .notFound _ => 404
  | .serverError _ => 500
  | .success _ => 200

/-- The loop of lines 607-610: index of the first record whose
`'Team ID'` cell equals `team_id`. -/
def findTeamRow (tid : String) : List Rec → Option Nat
  | [] => none
  | r :: rs =>
    if r.teamId == some tid then some 0
    else (findTeamRow tid rs).map (· + 1)

/-- One overwritten spreadsheet cell: 1-indexed row, 1-indexed column,
new value. -/
structure CellWrite where
  row : Nat
  col : Nat
  value : String
deriving DecidableEq

/-- The body of `update_payment` (lines 580-634), reached only through
`require_teacher_auth`.  `if not all([team_id, player, payment_status])`
treats both missing keys and empty strings as falsy.  On a match at list
index `i` the write targets row `i + 2` (header row plus 1-indexing) and
column 5 for player1 or 9 for player2. -/
def update_payment (sheetAvailable : Bool) (records : List Rec) (req : UpdateReq) :
    UpdateOutcome × List CellWrite :=
  match req.team_id, req.player, req.payment_status with
  | some tid, some player, some status =>
    if tid == "" || player == "" || status == "" then
      (.badRequest "Missing required fields", [])
    else if !(player == "player1" || player == "player2") then
      (.badRequest "Invalid player specified", [])
    else if !(status == "Yes" || status == "No") then
      (.badRequest "Invalid payment status", [])
    else if !sheetAvailable then
      (.serverError "Cannot connect to Google Sheets", [])
    else
      match findTeamRow tid records with
      | none => (.notFound "Team ID not found", [])
      | some i =>
        (.success ("Payment status updated for " ++ player ++ " of " ++ tid),
         [⟨i + 2, if player == "player1" then 5 else 9, status⟩])
  | _, _, _ => (.badRequest "Missing required fields", [])

/-! ## Helper lemmas -/

theorem decimalCharsAux_fuel_irrel (f1 : Nat) : ∀ f2 n : Nat, n ≤ f1 → n ≤ f2 →
    decimalCharsAux f1 n = decimalCharsAux f2 n := by
  induction f1 with
  | zero =>
    intro f2 n h1 _
    interval_cases n
    cases f2 <;> simp [decimalCharsAux]
  | succ k ih =>
    intro f2 n h1 h2
    cases f2 with
    | zero =>
      interval_cases n
      simp [decimalCharsAux]
    | succ m =>
      by_cases h : n < 10
      · simp [decimalCharsAux, h]
      · simp only [decimalCharsAux, if_neg h]
        rw [ih m (n / 10) (by omega) (by omega)]

theorem decimalChars_lt10 (n : Nat) (h : n < 10) : decimalChars n = [digitChar n] := by
  unfold decimalChars
  cases n with
  | zero => rfl
  | succ k => simp [decimalCharsAux, h]

theorem decimalChars_ge10 (n : Nat) (h : 10 ≤ n) :
    decimalChars n = decimalChars (n / 10) ++ [digitChar (n % 10)] := by
  unfold decimalChars
  cases n with
  | zero => omega
  | succ k =>
    simp only [decimalCharsAux, if_neg (by omega : ¬ k + 1 < 10)]
    rw [decimalCharsAux_fuel_irrel k ((k + 1) / 10) ((k + 1) / 10) (by omega) (by omega)]

theorem digitChar_isDigit (d : Nat) (h : d < 10) : (digitChar d).isDigit = true := by
  interval_cases d <;> decide

theorem decimalChars_all_digits (n : Nat) : (decimalChars n).all Char.isDigit = true := by
  induction n using Nat.strong_induction_on with
  | _ n ih =>
    by_cases h : n < 10
    · rw [decimalChars_lt10 n h]
      simp [digitChar_isDigit n h]
    · rw [decimalChars_ge10 n (by omega), List.all_append]
      have h1 := ih (n / 10) (Nat.div_lt_self (by omega) (by omega))
      have h2 := digitChar_isDigit (n % 10) (Nat.mod_lt n (by omega))
      simp [h1, h2]

theorem decimalChars_length1 (n : Nat) (h : n < 10) : (decimalChars n).length = 1 := by
  rw [decimalChars_lt10 n h]; rfl

theorem decimalChars_length2 (n : Nat) (h1 : 10 ≤ n) (h2 : n < 100) :
    (decimalChars n).length = 2 := by
  rw [decimalChars_ge10 n h1, List.length_append, decimalChars_length1 (n / 10) (by omega)]
  rfl

theorem decimalChars_length3 (n : Nat) (h1 : 100 ≤ n) (h2 : n < 1000) :
    (decimalChars n).length = 3 := by
  rw [decimalChars_ge10 n (by omega), List.length_append,
    decimalChars_length2 (n / 10) (by omega) (by omega)]
  rfl

theorem decimalChars_length4 (n : Nat) (h1 : 1000 ≤ n) (h2 : n ≤ 9999) :
    (decimalChars n).length = 4 := by
  rw [decimalChars_ge10 n (by omega), List.length_append,
    decimalChars_length3 (n / 10) (by omega) (by omega)]
  rfl

theorem pad2Chars_all_digits (n : Nat) : (pad2Chars n).all Char.isDigit = true := by
  unfold pad2Chars
  by_cases h : n < 10
  · simp [h, decimalChars_all_digits n]
  · simp [h, decimalChars_all_digits n]

theorem pad2Chars_length2 (n : Nat) (h : n < 100) : (pad2Chars n).length = 2 := by
  unfold pad2Chars
  by_cases h10 : n < 10
  · simp [h10, decimalChars_length1 n h10]
  · simp [h10, decimalChars_length2 n (by omega) h]

/-! ## C1, C2, C3: login and the auth gate -/

/-- Claim C1 (code bug): a form-encoded POST to `/teacher/login` with the
correct password does not authenticate.  Because the conditional expression
at line 456 binds loosest, `password` is `None` for every non-JSON request;
the comparison fails and the error path then references `login_template`
before its assignment, so the request dies with an `UnboundLocalError`
(HTTP 500) instead of setting the session flag and redirecting.  The JSON
half of the claim does hold, as the second conjunct shows. -/
theorem c1_form_login_correct_password_crashes :
    teacher_login_post "admin123" none ⟨false, some "admin123", none⟩
      = (.internalError, none) ∧
    teacher_login_post "admin123" none ⟨true, none, some "admin123"⟩
      = (.redirectDashboard, some true) :=
  ⟨rfl, rfl⟩

/-- Claim C2 (counterexample): a JSON request to a gated route while
Anonymous is answered with the redirect to the login page, not with a 401
status — `require_teacher_auth` never inspects the request type. -/
theorem c2_anonymous_json_request_not_401 :
    require_teacher_auth none true = .redirectLogin ∧
    require_teacher_auth (some false) true = .redirectLogin ∧
    GateResult.redirectLogin ≠ GateResult.unauthorized401 :=
  ⟨rfl, rfl, by decide⟩

/-- Claim C2 (amended): every request to a gated route while the session is
Anonymous — flag absent or false — is redirected to the login route,
regardless of whether the request is JSON. -/
theorem c2_gate_redirects_anonymous (flag : Option Bool) (isJson : Bool)
    (h : flag = none ∨ flag = some false) :
    require_teacher_auth flag isJson = .redirectLogin := by
  rcases h with h | h <;> subst h <;> rfl

/-- Concrete instance of the amended C2 statement. -/
theorem c2_gate_redirects_anonymous_witness :
    require_teacher_auth none true = .redirectLogin :=
  c2_gate_redirects_anonymous none true (Or.inl rfl)

/-- Claim C3 (code bug): a form POST with a wrong password does leave the
session flag unset, and a later `/teacher` request is still redirected to
the login page; but the login page is not re-rendered with an error —
line 466 references `login_template` before its assignment at line 468, so
the handler raises `UnboundLocalError` and the client receives a 500. -/
theorem c3_wrong_password_form_post_crashes :
    teacher_login_post "admin123" none ⟨false, some "wrong", none⟩
      = (.internalError, none) ∧
    require_teacher_auth none false = .redirectLogin :=
  ⟨rfl, rfl⟩

/-! ## C4: payment fields of a persisted row -/

/-- Claim C4: every row the handler persists — to the spreadsheet or to the
local fallback file — has exactly ten fields and the string `"No"` in both
payment-agreement fields (list positions 4 and 8, i.e. 1-indexed positions
5 and 9), whatever `paymentAgreement` values the client submitted. -/
theorem c4_persisted_row_payment_fields_no
    (env : Env) (dt : DateTime) (data : Option SubmitPayload) (row : List String)
    (h : row ∈ (submit_registration env dt data).sheetAppends ++
         (submit_registration env dt data).localAppends) :
    row.length = 10 ∧ row[4]? = some "No" ∧ row[8]? = some "No" := by
  rcases data with _ | ⟨op1, op2⟩
  · simp [submit_registration] at h
  rcases op1 with _ | p1
  · simp [submit_registration] at h
  rcases op2 with _ | p2
  · simp [submit_registration] at h
  rcases hc1 : pyIntCast (p1.age.getD (.pyInt 0)) with _ | a1
  · simp [submit_registration, hc1] at h
  rcases hc2 : pyIntCast (p2.age.getD (.pyInt 0)) with _ | a2
  · simp [submit_registration, hc1, hc2] at h
  by_cases hr1 : 11 ≤ a1 ∧ a1 ≤ 14
  case neg => simp [submit_registration, hc1, hc2, hr1] at h
  by_cases hr2 : 11 ≤ a2 ∧ a2 ≤ 14
  case neg => simp [submit_registration, hc1, hc2, hr1.1, hr1.2, hr2] at h
  rcases env with ⟨sa, ar⟩
  cases sa <;> cases ar <;>
    simp [submit_registration, hc1, hc2, hr1.1, hr1.2, hr2.1, hr2.2] at h <;>
    subst h <;> simp [buildRow]

/-! ## C5: dashboard statistics -/

/-- Claim C5 (counterexample): the counter identity fails on a record set
the dashboard can read: a record whose payment cells hold the empty string
(an empty spreadsheet cell) is counted by none of the three categories, so
the three counters sum to 0 while the total is 1. -/
theorem c5_stats_sum_counterexample :
    full_payment_count [⟨none, some "", some ""⟩] +
      partial_payment_count [⟨none, some "", some ""⟩] +
      no_payment_count [⟨none, some "", some ""⟩]
      ≠ total_count [⟨none, some "", some ""⟩] := by decide

/-- Claim C5 (amended): for every record set in which each record's two
payment cells are each exactly `"Yes"` or `"No"`, the dashboard counters
satisfy `full + partial + no = total`. -/
theorem c5_stats_sum_for_yes_no_records (records : List Rec)
    (h : ∀ r ∈ records, (r.p1pay = some "Yes" ∨ r.p1pay = some "No") ∧
          (r.p2pay = some "Yes" ∨ r.p2pay = some "No")) :
    full_payment_count records + partial_payment_count records + no_payment_count records
      = total_count records := by
  induction records with
  | nil => rfl
  | cons r rs ih =>
    have hr := h r (List.mem_cons_self r rs)
    have ih' := ih (fun x hx => h x (List.mem_cons_of_mem r hx))
    unfold full_payment_count partial_payment_count no_payment_count total_count at ih' ⊢
    rw [List.countP_cons, List.countP_cons, List.countP_cons, List.length_cons]
    obtain ⟨tid, pv1, pv2⟩ := r
    rcases hr with ⟨h1 | h1, h2 | h2⟩ <;> subst h1 <;> subst h2 <;> simp <;> omega

/-- Concrete instance of the amended C5 statement: one fully paid, one
partially paid and one unpaid team. -/
theorem c5_stats_sum_for_yes_no_records_witness :
    full_payment_count
        [⟨some "T1", some "Yes", some "Yes"⟩, ⟨some "T2", some "Yes", some "No"⟩,
         ⟨some "T3", some "No", some "No"⟩] +
      partial_payment_count
        [⟨some "T1", some "Yes", some "Yes"⟩, ⟨some "T2", some "Yes", some "No"⟩,
         ⟨some "T3", some "No", some "No"⟩] +
      no_payment_count
        [⟨some "T1", some "Yes", some "Yes"⟩, ⟨some "T2", some "Yes", some "No"⟩,
         ⟨some "T3", some "No", some "No"⟩]
      = total_count
        [⟨some "T1", some "Yes", some "Yes"⟩, ⟨some "T2", some "Yes", some "No"⟩,
         ⟨some "T3", some "No", some "No"⟩] :=
  c5_stats_sum_for_yes_no_records
    [⟨some "T1", some "Yes", some "Yes"⟩, ⟨some "T2", some "Yes", some "No"⟩,
     ⟨some "T3", some "No", some "No"⟩] (by decide)

/-! ## C6: the payment updater's scan and single-cell write -/

theorem findTeamRow_eq_none_iff (tid : String) (rs : List Rec) :
    findTeamRow tid rs = none ↔ ∀ r ∈ rs, r.teamId ≠ some tid := by
  induction rs with
  | nil => simp [findTeamRow]
  | cons r rs ih =>
    by_cases hb : r.teamId == some tid
    · have heq : r.teamId = some tid := by simpa using hb
      simp [findTeamRow, hb, heq]
    · have hne : r.teamId ≠ some tid := by simpa using hb
      simp [findTeamRow, hb, hne, Option.map_eq_none', ih]

theorem findTeamRow_eq_some (tid : String) (rs : List Rec) (i : Nat)
    (h : findTeamRow tid rs = some i) :
    (∃ r, rs[i]? = some r ∧ r.teamId = some tid) ∧
    ∀ j, j < i → ∀ r, rs[j]? = some r → r.teamId ≠ some tid := by
  induction rs generalizing i with
  | nil => cases h
  | cons r rs ih =>
    by_cases hb : r.teamId == some tid
    · have heq : r.teamId = some tid := by simpa using hb
      simp only [findTeamRow, if_pos hb, Option.some.injEq] at h
      subst h
      refine ⟨⟨r, by simp, heq⟩, ?_⟩
      intro j hj r' _
      exact absurd hj (Nat.not_lt_zero j)
    · have hne : r.teamId ≠ some tid := by simpa using hb
      rw [findTeamRow, if_neg hb] at h
      rcases Option.map_eq_some'.mp h with ⟨i', hi', rfl⟩
      obtain ⟨⟨r', hr', htid⟩, hfirst⟩ := ih i' hi'
      refine ⟨⟨r', by simpa using hr', htid⟩, ?_⟩
      intro j hj r'' hr''
      cases j with
      | zero =>
        simp at hr''
        subst hr''
        exact hne
      | succ k =>
        exact hfirst k (by omega) r'' (by simpa using hr'')

/-- Claim C6: for an authenticated `/teacher/update-payment` request with
valid fields and a reachable sheet, the handler scans the record list in
order for the first record whose Team ID equals `team_id`: if none matches
it answers 404 "Team ID not found" and writes nothing; if the first match
sits at list index `i`, it writes exactly one cell, at 1-indexed row
`i + 2` and column 5 for player1 / 9 for player2, with the given status. -/
theorem c6_update_payment_scan_and_write
    (records : List Rec) (tid player status : String)
    (htid : tid ≠ "")
    (hp : player = "player1" ∨ player = "player2")
    (hs : status = "Yes" ∨ status = "No") :
    ((∀ r ∈ records, r.teamId ≠ some tid) →
      update_payment true records ⟨some tid, some player, some status⟩
        = (.notFound "Team ID not found", []) ∧
      (UpdateOutcome.notFound "Team ID not found").httpStatus = 404) ∧
    (∀ i, findTeamRow tid records = some i →
      (update_payment true records ⟨some tid, some player, some status⟩).2
        = [⟨i + 2, if player = "player1" then 5 else 9, status⟩] ∧
      (∃ r, records[i]? = some r ∧ r.teamId = some tid) ∧
      (∀ j, j < i → ∀ r, records[j]? = some r → r.teamId ≠ some tid) ∧
      ((update_payment true records ⟨some tid, some player, some status⟩).1).httpStatus
        = 200) := by
  have htidb : (tid == "") = false := by simpa using htid
  constructor
  · intro hnone
    have h0 : findTeamRow tid records = none := (findTeamRow_eq_none_iff tid records).mpr hnone
    rcases hp with rfl | rfl <;> rcases hs with rfl | rfl <;>
      exact ⟨by simp [update_payment, htidb, h0], rfl⟩
  · intro i hi
    have hsome := findTeamRow_eq_some tid records i hi
    rcases hp with rfl | rfl <;> rcases hs with rfl | rfl <;>
      exact ⟨by simp [update_payment, htidb, hi], hsome.1, hsome.2,
        by simp [update_payment, UpdateOutcome.httpStatus, htidb, hi]⟩

/-- Concrete instance of C6: with two records, updating player2 of the
second team writes exactly the cell at row 4, column 9. -/
theorem c6_update_payment_scan_and_write_witness :
    (update_payment true
        [⟨some "T1", some "No", some "No"⟩, ⟨some "T2", some "No", some "No"⟩]
        ⟨some "T2", some "player2", some "Yes"⟩).2
      = [⟨3, 9, "Yes"⟩] := by
  have h := c6_update_payment_scan_and_write
    [⟨some "T1", some "No", some "No"⟩, ⟨some "T2", some "No", some "No"⟩]
    "T2" "player2" "Yes" (by decide) (Or.inr rfl) (Or.inl rfl)
  have h2 := (h.2 1 (by decide)).1
  simpa using h2

/-! ## C7: age validation -/

/-- Claim C7: whenever either player's age fails to cast to an integer or
casts to an integer outside `[11, 14]`, the handler answers 400 — with
"Invalid age provided" when a cast fails, and with the player-specific
range message when both casts succeed — and appends no row to the
spreadsheet or the local fallback file. -/
theorem c7_invalid_age_rejected_without_persist
    (env : Env) (dt : DateTime) (p1 p2 : Player)
    (hinv : ¬ agesValid (pyIntCast (p1.age.getD (.pyInt 0)))
      (pyIntCast (p2.age.getD (.pyInt 0)))) :
    ∃ msg, submit_registration env dt (some ⟨some p1, some p2⟩)
        = ⟨.badRequest msg, [], []⟩ ∧
      (SubmitOutcome.badRequest msg).httpStatus = 400 ∧
      ((pyIntCast (p1.age.getD (.pyInt 0)) = none ∨
        pyIntCast (p2.age.getD (.pyInt 0)) = none) →
        msg = "Invalid age provided") ∧
      (∀ b1 b2, pyIntCast (p1.age.getD (.pyInt 0)) = some b1 →
        pyIntCast (p2.age.getD (.pyInt 0)) = some b2 →
        msg = if 11 ≤ b1 ∧ b1 ≤ 14 then "Player 2 age must be between 11-14"
              else "Player 1 age must be between 11-14") := by
  rcases hc1 : pyIntCast (p1.age.getD (.pyInt 0)) with _ | a1
  · refine ⟨"Invalid age provided", by simp [submit_registration, hc1], rfl,
      fun _ => rfl, ?_⟩
    intro b1 b2 hb1 _
    exact Option.noConfusion hb1
  rcases hc2 : pyIntCast (p2.age.getD (.pyInt 0)) with _ | a2
  · refine ⟨"Invalid age provided", by simp [submit_registration, hc1, hc2], rfl,
      fun _ => rfl, ?_⟩
    intro b1 b2 _ hb2
    exact Option.noConfusion hb2
  by_cases hr1 : 11 ≤ a1 ∧ a1 ≤ 14
  · by_cases hr2 : 11 ≤ a2 ∧ a2 ≤ 14
    · exact absurd ⟨a1, a2, hc1, hc2, hr1.1, hr1.2, hr2.1, hr2.2⟩ hinv
    · refine ⟨"Player 2 age must be between 11-14",
        by simp [submit_registration, hc1, hc2, hr1.1, hr1.2, hr2], rfl, ?_, ?_⟩
      · rintro (h | h) <;> exact Option.noConfusion h
      · intro b1 b2 hb1 hb2
        injection hb1 with hb1
        subst hb1
        rw [if_pos hr1]
  · refine ⟨"Player 1 age must be between 11-14",
      by simp [submit_registration, hc1, hc2, hr1], rfl, ?_, ?_⟩
    · rintro (h | h) <;> exact Option.noConfusion h
    · intro b1 b2 hb1 hb2
      injection hb1 with hb1
      subst hb1
      rw [if_neg hr1]

/-! ## C8: successful submission and the Team ID format -/

theorem mkTeamId_wellFormed (dt : DateTime)
    (hy1 : 1000 ≤ dt.year) (hy2 : dt.year ≤ 9999)
    (hm : dt.month < 100) (hd : dt.day < 100)
    (hh : dt.hour < 100) (hmi : dt.minute < 100) (hs : dt.second < 100) :
    teamIdWellFormed (mkTeamId dt) = true := by
  have hA : (decimalChars dt.year ++ (pad2Chars dt.month ++ pad2Chars dt.day)).length = 8 := by
    simp [List.length_append, decimalChars_length4 dt.year hy1 hy2,
      pad2Chars_length2 dt.month hm, pad2Chars_length2 dt.day hd]
  have hB : (pad2Chars dt.hour ++ (pad2Chars dt.minute ++ pad2Chars dt.second)).length = 6 := by
    simp [List.length_append, pad2Chars_length2 dt.hour hh,
      pad2Chars_length2 dt.minute hmi, pad2Chars_length2 dt.second hs]
  have hshape : mkTeamIdChars dt =
      'T' :: 'E' :: 'A' :: 'M' :: '_' ::
        ((decimalChars dt.year ++ (pad2Chars dt.month ++ pad2Chars dt.day)) ++
         '_' :: (pad2Chars dt.hour ++ (pad2Chars dt.minute ++ pad2Chars dt.second))) := by
    simp [mkTeamIdChars, List.append_assoc]
  show wfTeamChars (mkTeamIdChars dt) = true
  rw [hshape]
  simp only [wfTeamChars, List.take_left' hA, List.drop_left' hA]
  simp [List.length_append, decimalChars_length4 dt.year hy1 hy2,
    pad2Chars_length2 dt.month hm, pad2Chars_length2 dt.day hd,
    pad2Chars_length2 dt.hour hh, pad2Chars_length2 dt.minute hmi,
    pad2Chars_length2 dt.second hs, List.all_append,
    decimalChars_all_digits, pad2Chars_all_digits]

/-- Claim C8: a payload whose two ages cast to integers in `[11, 14]` is
answered 200 with a success body, and (provided the append on an open
sheet does not raise, and for any clock value a real `datetime.now()` can
produce) the returned `team_id` has the shape `TEAM_` + 8 digits + `_` +
6 digits. -/
theorem c8_valid_submission_success_and_team_id
    (env : Env) (dt : DateTime) (p1 p2 : Player)
    (hages : agesValid (pyIntCast (p1.age.getD (.pyInt 0)))
      (pyIntCast (p2.age.getD (.pyInt 0))))
    (happend : env.appendRaises = false)
    (hy1 : 1000 ≤ dt.year) (hy2 : dt.year ≤ 9999)
    (hm : dt.month ≤ 12) (hd : dt.day ≤ 31)
    (hh : dt.hour ≤ 23) (hmi : dt.minute ≤ 59) (hs : dt.second ≤ 59) :
    (submit_registration env dt (some ⟨some p1, some p2⟩)).outcome
      = .ok (mkTeamId dt) env.sheetAvailable ∧
    (SubmitOutcome.ok (mkTeamId dt) env.sheetAvailable).httpStatus = 200 ∧
    teamIdWellFormed (mkTeamId dt) = true := by
  obtain ⟨a1, a2, hc1, hc2, ha1, ha2, ha3, ha4⟩ := hages
  refine ⟨?_, rfl, mkTeamId_wellFormed dt hy1 hy2 (by omega) (by omega)
    (by omega) (by omega) (by omega)⟩
  cases hsv : env.sheetAvailable <;>
    simp [submit_registration, hc1, hc2, happend, hsv, ha1, ha2, ha3, ha4]

/-! ## C9: local fallback on sheet-connection failure -/

/-- Claim C9: when the sheet connection fails (`get_google_sheet()` returns
`None`), a valid submission is appended to the local fallback file and the
response is still a 200 success with `saved_to_sheets` false. -/
theorem c9_sheet_unavailable_falls_back_local
    (env : Env) (dt : DateTime) (p1 p2 : Player)
    (hages : agesValid (pyIntCast (p1.age.getD (.pyInt 0)))
      (pyIntCast (p2.age.getD (.pyInt 0))))
    (hsheet : env.sheetAvailable = false) :
    ∃ row, submit_registration env dt (some ⟨some p1, some p2⟩)
        = ⟨.ok (mkTeamId dt) false, [], [row]⟩ ∧
      (SubmitOutcome.ok (mkTeamId dt) false).httpStatus = 200 := by
  obtain ⟨a1, a2, hc1, hc2, ha1, ha2, ha3, ha4⟩ := hages
  exact ⟨buildRow dt p1 p2 a1 a2 (mkTeamId dt),
    by simp [submit_registration, hc1, hc2, hsheet, ha1, ha2, ha3, ha4], rfl⟩

/-! ## C10: a raising append yields 500 and no local write -/

/-- Claim C10: when the sheet connection succeeds but the append itself
raises, the exception reaches the outer handler — HTTP 500 — and the local
fallback file is not written (nor is any sheet row recorded). -/
theorem c10_append_failure_500_no_local_write
    (env : Env) (dt : DateTime) (p1 p2 : Player)
    (hages : agesValid (pyIntCast (p1.age.getD (.pyInt 0)))
      (pyIntCast (p2.age.getD (.pyInt 0))))
    (hsheet : env.sheetAvailable = true) (hraise : env.appendRaises = true) :
    submit_registration env dt (some ⟨some p1, some p2⟩) = ⟨.serverError, [], []⟩ ∧
    SubmitOutcome.serverError.httpStatus = 500 := by
  obtain ⟨a1, a2, hc1, hc2, ha1, ha2, ha3, ha4⟩ := hages
  exact ⟨by simp [submit_registration, hc1, hc2, hsheet, hraise, ha1, ha2, ha3, ha4], rfl⟩

/-! ## Witnesses for the registration-handler claims -/

/-- Concrete instance of C4: the row persisted for a valid submission has
ten fields with `"No"` at positions 4 and 8. -/
theorem c4_persisted_row_payment_fields_no_witness :
    (["2026-10-12 09:05:03", "Alice", "12", "7 A", "No", "Bob", "13", "8 B", "No",
      "TEAM_20261012_090503"] : List String).length = 10 ∧
    (["2026-10-12 09:05:03", "Alice", "12", "7 A", "No", "Bob", "13", "8 B", "No",
      "TEAM_20261012_090503"] : List String)[4]? = some "No" ∧
    (["2026-10-12 09:05:03", "Alice", "12", "7 A", "No", "Bob", "13", "8 B", "No",
      "TEAM_20261012_090503"] : List String)[8]? = some "No" :=
  c4_persisted_row_payment_fields_no ⟨false, false⟩ ⟨2026, 10, 12, 9, 5, 3⟩
    (some ⟨some ⟨some "Alice", some (.pyStr "12"), some "7", some "A", some (.pyBool true)⟩,
           some ⟨some "Bob", some (.pyInt 13), some "8", some "B", some (.pyBool true)⟩⟩)
    ["2026-10-12 09:05:03", "Alice", "12", "7 A", "No", "Bob", "13", "8 B", "No",
      "TEAM_20261012_090503"]
    (by decide)

/-- Concrete instance of C7: a non-numeric age is answered 400
"Invalid age provided" with nothing persisted. -/
theorem c7_invalid_age_rejected_without_persist_witness :
    submit_registration ⟨true, false⟩ ⟨2026, 10, 12, 9, 5, 3⟩
        (some ⟨some ⟨some "Alice", some (.pyStr "abc"), some "7", some "A", some (.pyBool true)⟩,
               some ⟨some "Bob", some (.pyInt 13), some "8", some "B", some (.pyBool true)⟩⟩)
      = ⟨.badRequest "Invalid age provided", [], []⟩ := by
  have hval : pyIntCast ((⟨some "Alice", some (.pyStr "abc"), some "7", some "A",
      some (.pyBool true)⟩ : Player).age.getD (.pyInt 0)) = none := by decide
  obtain ⟨msg, heq, -, hmsg, -⟩ :=
    c7_invalid_age_rejected_without_persist ⟨true, false⟩ ⟨2026, 10, 12, 9, 5, 3⟩
      ⟨some "Alice", some (.pyStr "abc"), some "7", some "A", some (.pyBool true)⟩
      ⟨some "Bob", some (.pyInt 13), some "8", some "B", some (.pyBool true)⟩
      (by rintro ⟨a1, a2, hc1, -, -, -, -, -⟩
          rw [hval] at hc1
          exact Option.noConfusion hc1)
  rw [hmsg (Or.inl hval)] at heq
  exact heq

/-- Concrete instance of C8: a valid submission on 2026-10-12 09:05:03
succeeds with a well-formed Team ID. -/
theorem c8_valid_submission_success_and_team_id_witness :
    (submit_registration ⟨true, false⟩ ⟨2026, 10, 12, 9, 5, 3⟩
        (some ⟨some ⟨some "Alice", some (.pyStr "12"), some "7", some "A", some (.pyBool true)⟩,
               some ⟨some "Bob", some (.pyInt 13), some "8", some "B", some (.pyBool true)⟩⟩)).outcome
      = .ok (mkTeamId ⟨2026, 10, 12, 9, 5, 3⟩) true ∧
    (SubmitOutcome.ok (mkTeamId ⟨2026, 10, 12, 9, 5, 3⟩) true).httpStatus = 200 ∧
    teamIdWellFormed (mkTeamId ⟨2026, 10, 12, 9, 5, 3⟩) = true :=
  c8_valid_submission_success_and_team_id ⟨true, false⟩ ⟨2026, 10, 12, 9, 5, 3⟩
    ⟨some "Alice", some (.pyStr "12"), some "7", some "A", some (.pyBool true)⟩
    ⟨some "Bob", some (.pyInt 13), some "8", some "B", some (.pyBool true)⟩
    ⟨12, 13, by decide, by decide, by decide, by decide, by decide, by decide⟩
    rfl (by decide) (by decide) (by decide) (by decide) (by decide) (by decide) (by decide)

/-- Concrete instance of C9: with the sheet unavailable, the valid
submission lands in the local fallback and the response is a 200 success. -/
theorem c9_sheet_unavailable_falls_back_local_witness :
    ∃ row, submit_registration ⟨false, false⟩ ⟨2026, 10, 12, 9, 5, 3⟩
        (some ⟨some ⟨some "Alice", some (.pyStr "12"), some "7", some "A", some (.pyBool true)⟩,
               some ⟨some "Bob", some (.pyInt 13), some "8", some "B", some (.pyBool true)⟩⟩)
        = ⟨.ok (mkTeamId ⟨2026, 10, 12, 9, 5, 3⟩) false, [], [row]⟩ ∧
      (SubmitOutcome.ok (mkTeamId ⟨2026, 10, 12, 9, 5, 3⟩) false).httpStatus = 200 :=
  c9_sheet_unavailable_falls_back_local ⟨false, false⟩ ⟨2026, 10, 12, 9, 5, 3⟩
    ⟨some "Alice", some (.pyStr "12"), some "7", some "A", some (.pyBool true)⟩
    ⟨some "Bob", some (.pyInt 13), some "8", some "B", some (.pyBool true)⟩
    ⟨12, 13, by decide, by decide, by decide, by decide, by decide, by decide⟩
    rfl

/-- Concrete instance of C10: an open sheet whose append raises turns the
valid submission into a 500 with no rows recorded anywhere. -/
theorem c10_append_failure_500_no_local_write_witness :
    submit_registration ⟨true, true⟩ ⟨2026, 10, 12, 9, 5, 3⟩
        (some ⟨some ⟨some "Alice", some (.pyStr "12"), some "7", some "A", some (.pyBool true)⟩,
               some ⟨some "Bob", some (.pyInt 13), some "8", some "B", some (.pyBool true)⟩⟩)
      = ⟨.serverError, [], []⟩ ∧
    SubmitOutcome.serverError.httpStatus = 500 :=
  c10_append_failure_500_no_local_write ⟨true, true⟩ ⟨2026, 10, 12, 9, 5, 3⟩
    ⟨some "Alice", some (.pyStr "12"), some "7", some "A", some (.pyBool true)⟩
    ⟨some "Bob", some (.pyInt 13), some "8", some "B", some (.pyBool true)⟩
    ⟨12, 13, by decide, by decide, by decide, by decide, by decide, by decide⟩
    rfl rfl

end ArkSplatoon
